import Mathlib

/-!
Shallow embedding of the tic-tac-toe client (`src/App.tsx`) and the HTTP
helper module, together with theorems checking the specification's claims
about the Client View and the HTTP collaborator.

The Client View is a React component; its local state is the five
`useState` hooks of `App`. User operations (`joinRoom`, `play`, `reset`)
are modelled as functions from the local state to a pair of the new local
state and an optional emitted socket message; server-event handlers
(`joined`, `full`, `state`, `gameOver`) are functions from local state and
payload to the new local state.
-/

namespace TicTacToe

/-- A player mark, `'X' | 'O'` in the source. -/
inductive Symbol where
  | X
  | O
deriving DecidableEq, Repr

/-- Renders a symbol the way a template literal renders the string union value. -/
def Symbol.str : Symbol → String
  | .X => "X"
  | .O => "O"

/-- `interface RoomState` of `App.tsx`: board of cells (`null` or a mark),
player list, turn indicator, and an optional winning line. -/
structure RoomState where
  board : List (Option Symbol)
  players : List String
  turn : Symbol
  winnerLine : Option (List Nat)
deriving DecidableEq, Repr

/-- The local state of the `App` component: the five `useState` hooks
`roomId`, `joined`, `symbol`, `state` (here `gameState`) and `status`. -/
structure ClientState where
  roomId : String
  joined : Bool
  symbol : Option Symbol
  gameState : RoomState
  status : String
deriving DecidableEq, Repr

/-- Initial hook values of `App`:
`roomId = ''`, `joined = false`, `symbol = null`,
`state = ⟨Array(9).fill(null), [], 'X'⟩` (no `winnerLine` field),
`status = 'Waiting for players...'`. -/
def initialClientState : ClientState :=
  { roomId := ""
    joined := false
    symbol := none
    gameState :=
      { board := List.replicate 9 none
        players := []
        turn := Symbol.X
        winnerLine := none }
    status := "Waiting for players..." }

/-- The closed set of client-to-server socket messages emitted by `App.tsx`:
`socket.emit('join', roomId)`, `socket.emit('play', ...)` with fields
roomId, index, symbol, and `socket.emit('reset', roomId)`. -/
inductive InboundMsg where
  | join (roomId : String)
  | play (roomId : String) (index : Nat) (symbol : Symbol)
  | reset (roomId : String)
deriving DecidableEq, Repr

/-- The event kind of an inbound message. -/
inductive InKind where
  | join
  | play
  | reset
deriving DecidableEq, Repr

/-- Kind of each inbound message. -/
def InboundMsg.kind : InboundMsg → InKind
  | .join _ => .join
  | .play _ _ _ => .play
  | .reset _ => .reset

/-- Model of JavaScript `String.prototype.trim`: removes leading and
trailing whitespace characters. -/
def jsTrim (s : String) : String :=
  ⟨((s.data.dropWhile Char.isWhitespace).reverse.dropWhile Char.isWhitespace).reverse⟩

/-- `joinRoom` of `App.tsx`:
`if (roomId.trim()) socket.emit('join', roomId);`
A string is truthy exactly when it is nonempty, and the emitted payload is
the untrimmed `roomId`. No state setter is called. -/
def joinRoom (st : ClientState) : ClientState × Option InboundMsg :=
  if jsTrim st.roomId = "" then (st, none)
  else (st, some (InboundMsg.join st.roomId))

/-- `play` of `App.tsx`:
`if (!joined || state.board[idx] || state.turn !== symbol) return;`
`socket.emit('play', ⟨roomId, index: idx, symbol⟩);`
`state.board[idx]` is falsy when the cell holds `null` or the index is out
of range (`undefined`), modelled by `getD idx none = none`; when `symbol`
is `null`, `state.turn !== symbol` holds and nothing is emitted. No state
setter is called. -/
def play (st : ClientState) (idx : Nat) : ClientState × Option InboundMsg :=
  if st.joined = false then (st, none)
  else if (st.gameState.board.getD idx none).isSome = true then (st, none)
  else
    match st.symbol with
    | none => (st, none)
    | some s =>
      if st.gameState.turn = s then (st, some (InboundMsg.play st.roomId idx s))
      else (st, none)

/-- `reset` of `App.tsx`: `socket.emit('reset', roomId);` — unconditional,
no state setter is called. -/
def reset (st : ClientState) : ClientState × Option InboundMsg :=
  (st, some (InboundMsg.reset st.roomId))

/-- The user operations of the Client View that can reach a `socket.emit`
call: the Join Game button (`joinRoom`), a cell click (`play(i)`), and the
Reset button (`reset`). These are the only three `socket.emit` sites in
`App.tsx`. -/
inductive ClientOp where
  | joinRoomOp
  | playOp (idx : Nat)
  | resetOp
deriving DecidableEq, Repr

/-- Message emitted by a user operation, if any. -/
def clientEmit (st : ClientState) : ClientOp → Option InboundMsg
  | .joinRoomOp => (joinRoom st).2
  | .playOp idx => (play st idx).2
  | .resetOp => (reset st).2

/-- Payload of the server `gameOver` event:
`⟨winner: 'X' | 'O' | null, disconnected: boolean⟩`. -/
structure GameOverData where
  winner : Option Symbol
  disconnected : Bool
deriving DecidableEq, Repr

/-- Handler `socket.on('joined', ...)`: `setSymbol(data.symbol);
setJoined(true); setStatus('Joined as ' + data.symbol)`. -/
def onJoined (st : ClientState) (s : Symbol) : ClientState :=
  { st with symbol := some s, joined := true, status := "Joined as " ++ s.str }

/-- Handler `socket.on('full', ...)`: `setStatus('Room is full')` only. -/
def onFull (st : ClientState) : ClientState :=
  { st with status := "Room is full" }

/-- Handler `socket.on('state', ...)`: `setState(room);
setStatus(room.turn === symbol ? 'Your turn' : "Opponent's turn")`. -/
def onState (st : ClientState) (room : RoomState) : ClientState :=
  { st with gameState := room
            status := if st.symbol = some room.turn then "Your turn"
                      else "Opponent\x27s turn" }

/-- Handler `socket.on('gameOver', ...)`:
`if (data.disconnected) setStatus('Opponent disconnected');
else if (data.winner === null) setStatus('Draw!');
else setStatus(data.winner === symbol ? 'You win!' : 'You lose.');`. -/
def onGameOver (st : ClientState) (d : GameOverData) : ClientState :=
  { st with status :=
      if d.disconnected = true then "Opponent disconnected"
      else if d.winner = none then "Draw!"
      else if d.winner = st.symbol then "You win!"
      else "You lose." }

/-- The closed set of server-to-client messages `App.tsx` registers a
handler for: `joined`, `full`, `state`, `gameOver`. -/
inductive OutboundMsg where
  | joined (symbol : Symbol)
  | full
  | state (room : RoomState)
  | gameOver (d : GameOverData)
deriving DecidableEq, Repr

/-- Dispatch of the four `socket.on` handlers registered in the `useEffect`
of `App.tsx`. -/
def onServerMsg (st : ClientState) : OutboundMsg → ClientState
  | .joined s => onJoined st s
  | .full => onFull st
  | .state r => onState st r
  | .gameOver d => onGameOver st d

/-- The `highlight` prop computed for cell `i` in the board render:
`state.winnerLine?.includes(i) ?? false`. -/
def highlight (room : RoomState) (i : Nat) : Bool :=
  match room.winnerLine with
  | some line => line.contains i
  | none => false

/-- An HTTP request as assembled by the helper module: method, URL,
headers, and optional body. A bare `fetch(url)` call performs a GET with
no headers and no body. -/
structure HttpRequest where
  method : String
  url : String
  headers : List (String × String)
  body : Option String
deriving DecidableEq, Repr

/-- The effectful environment the helper module runs against: `fetch`
(yielding a response body text), `res.json()` parsing, and
`JSON.stringify` serialisation, over an abstract JSON value type. -/
structure HttpEnv (Json : Type) where
  fetch : HttpRequest → String
  parseJson : String → Json
  stringify : Json → String

/-- `fetchGameStatus` of the helper module:
`const res = await fetch(baseUrl + '/status'); return res.json();`
Returns the issued request together with the parsed response body. -/
def fetchGameStatus {Json : Type} (env : HttpEnv Json) (baseUrl : String) :
    HttpRequest × Json :=
  let req : HttpRequest :=
    { method := "GET", url := baseUrl ++ "/status", headers := [], body := none }
  (req, env.parseJson (env.fetch req))

/-- `sendMove` of the helper module:
`fetch(baseUrl + '/move', ⟨method: 'POST',
headers: ⟨'Content-Type': 'application/json'⟩,
body: JSON.stringify(moveData)⟩); return res.json();`
Returns the issued request together with the parsed response body. -/
def sendMove {Json : Type} (env : HttpEnv Json) (baseUrl : String)
    (moveData : Json) : HttpRequest × Json :=
  let req : HttpRequest :=
    { method := "POST", url := baseUrl ++ "/move"
      headers := [("Content-Type", "application/json")]
      body := some (env.stringify moveData) }
  (req, env.parseJson (env.fetch req))

/-- A joined client state with an empty board, its own symbol `X`, and the
turn at `X`, used to instantiate theorems at a concrete input. -/
def stReady : ClientState :=
  { roomId := "r1"
    joined := true
    symbol := some Symbol.X
    gameState :=
      { board := List.replicate 9 none
        players := ["a", "b"]
        turn := Symbol.X
        winnerLine := none }
    status := "Your turn" }

/-- Characterisation of `play`: it leaves the local state untouched and
emits exactly when the source guard passes, carrying the stored symbol
(which then equals the turn indicator). -/
theorem play_spec (st : ClientState) (idx : Nat) :
    play st idx =
      if st.joined = true ∧ st.gameState.board.getD idx none = none ∧
          st.symbol = some st.gameState.turn
      then (st, some (InboundMsg.play st.roomId idx st.gameState.turn))
      else (st, none) := by
  unfold play
  rcases hsym : st.symbol with _ | s
  · rcases hj : st.joined <;>
      rcases hc : st.gameState.board.getD idx none with _ | c <;>
        simp [hj, hc, hsym]
  · rcases hj : st.joined
    · rcases hc : st.gameState.board.getD idx none with _ | c <;> simp [hj, hc, hsym]
    · rcases hc : st.gameState.board.getD idx none with _ | c
      · by_cases ht : st.gameState.turn = s
        · simp [hj, hc, hsym, ht]
        · have hne : s ≠ st.gameState.turn := fun h => ht h.symm
          simp [hj, hc, hsym, ht, hne]
      · simp [hj, hc, hsym]

/-- Claim C1: for every cell index idx, `play(idx)` emits a `play` intent
exactly when the session is joined, the local board cell at idx is empty,
and the local turn indicator equals the session's own symbol; and the
local state is left unchanged. -/
theorem C1_play_emits_iff_guard (st : ClientState) (idx : Nat) (hidx : idx < 9) :
    ((play st idx).2.isSome = true ↔
      st.joined = true ∧ st.gameState.board.getD idx none = none ∧
        st.symbol = some st.gameState.turn)
    ∧ (play st idx).1 = st := by
  rw [play_spec]
  by_cases h : st.joined = true ∧ st.gameState.board.getD idx none = none ∧
      st.symbol = some st.gameState.turn
  · rw [if_pos h]
    exact ⟨⟨fun _ => h, fun _ => rfl⟩, rfl⟩
  · rw [if_neg h]
    exact ⟨⟨fun hf => absurd hf (by simp), fun hcond => absurd hcond h⟩, rfl⟩

/-- Witness for C1 at a concrete joined state and cell index 0. -/
theorem C1_witness :
    ((play stReady 0).2.isSome = true ↔
      stReady.joined = true ∧ stReady.gameState.board.getD 0 none = none ∧
        stReady.symbol = some stReady.gameState.turn)
    ∧ (play stReady 0).1 = stReady :=
  C1_play_emits_iff_guard stReady 0 (by decide)

/-- Claim C2: every emitted intent carries exactly the contract's fields:
`join` carries the room id, `play` carries the room id, the index and the
session's symbol, and `reset` carries the room id. -/
theorem C2_intent_payloads (st : ClientState) (idx : Nat) :
    (∀ m, (joinRoom st).2 = some m → m = InboundMsg.join st.roomId)
    ∧ (∀ m, (play st idx).2 = some m →
        ∃ s, st.symbol = some s ∧ m = InboundMsg.play st.roomId idx s)
    ∧ (reset st).2 = some (InboundMsg.reset st.roomId) := by
  refine ⟨?_, ?_, rfl⟩
  · intro m hm
    unfold joinRoom at hm
    split at hm <;> simp_all
  · intro m hm
    rw [play_spec] at hm
    split at hm
    · rename_i h
      exact ⟨st.gameState.turn, h.2.2, (Option.some_inj.mp hm).symm⟩
    · simp at hm

/-- Witness for C2: the play intent emitted from `stReady` at index 0
carries the stored symbol X. -/
theorem C2_witness :
    ∃ s, stReady.symbol = some s ∧
      InboundMsg.play stReady.roomId 0 Symbol.X = InboundMsg.play stReady.roomId 0 s :=
  (C2_intent_payloads stReady 0).2.1 (InboundMsg.play stReady.roomId 0 Symbol.X) (by decide)

/-- Claim C3: every message any Client View operation emits over the
socket is of kind `join`, `play`, or `reset`; no operation emits any
other event kind. -/
theorem C3_emits_only_three_kinds (st : ClientState) (op : ClientOp) (m : InboundMsg)
    (h : clientEmit st op = some m) :
    m.kind = InKind.join ∨ m.kind = InKind.play ∨ m.kind = InKind.reset := by
  cases m <;> simp [InboundMsg.kind]

/-- Witness for C3: the reset button at `stReady` emits a message whose
kind is among the three allowed kinds. -/
theorem C3_witness :
    (InboundMsg.reset "r1").kind = InKind.join ∨
      (InboundMsg.reset "r1").kind = InKind.play ∨
      (InboundMsg.reset "r1").kind = InKind.reset :=
  C3_emits_only_three_kinds stReady ClientOp.resetOp (InboundMsg.reset "r1") (by decide)

/-- Claim C4: the `gameOver` handler sets exactly one terminal status: a
disconnect message when `disconnected` is true, a draw message when
`disconnected` is false and `winner` is null, a win message when the
winner equals the session's own symbol, and a loss message otherwise. -/
theorem C4_gameOver_status (st : ClientState) (d : GameOverData) :
    (d.disconnected = true → (onGameOver st d).status = "Opponent disconnected")
    ∧ (d.disconnected = false → d.winner = none → (onGameOver st d).status = "Draw!")
    ∧ (∀ w, d.disconnected = false → d.winner = some w → st.symbol = some w →
        (onGameOver st d).status = "You win!")
    ∧ (∀ w, d.disconnected = false → d.winner = some w → st.symbol ≠ some w →
        (onGameOver st d).status = "You lose.") := by
  refine ⟨fun hd => ?_, fun hd hw => ?_, fun w hd hw hs => ?_, fun w hd hw hs => ?_⟩
  · simp [onGameOver, hd]
  · simp [onGameOver, hd, hw]
  · simp [onGameOver, hd, hw, hs]
  · simp [onGameOver, hd, hw, Ne.symm hs]

/-- Witness for C4: at `stReady` (own symbol X), a non-disconnect game
over with winner X yields the win message. -/
theorem C4_witness :
    (onGameOver stReady { winner := some Symbol.X, disconnected := false }).status
      = "You win!" :=
  (C4_gameOver_status stReady { winner := some Symbol.X, disconnected := false }).2.2.1
    Symbol.X rfl rfl rfl

/-- Claim C5: the `full` handler sets the explicit room-full status and
changes nothing else of the local state: the joined flag, symbol, room
state and room id are all left as they were. -/
theorem C5_full_sets_status_only (st : ClientState) :
    (onFull st).status = "Room is full"
    ∧ (onFull st).joined = st.joined
    ∧ (onFull st).symbol = st.symbol
    ∧ (onFull st).gameState = st.gameState
    ∧ (onFull st).roomId = st.roomId :=
  ⟨rfl, rfl, rfl, rfl, rfl⟩

/-- Claim C6: the `joined` handler records the granted symbol as the
session's own and marks the session joined; and from any state whose
stored symbol is that granted one, every emitted play intent carries
exactly that symbol. -/
theorem C6_joined_grants_symbol (st : ClientState) (s : Symbol) :
    (onJoined st s).symbol = some s
    ∧ (onJoined st s).joined = true
    ∧ (∀ st2 idx m, st2.symbol = (onJoined st s).symbol →
        (play st2 idx).2 = some m → m = InboundMsg.play st2.roomId idx s) := by
  refine ⟨rfl, rfl, fun st2 idx m hsym hm => ?_⟩
  rw [play_spec] at hm
  split at hm
  · rename_i h
    have hts : st2.gameState.turn = s := by
      have h2 := h.2.2
      rw [hsym] at h2
      exact (Option.some_inj.mp h2).symm
    rw [← Option.some_inj.mp hm, hts]
  · simp at hm

/-- Witness for C6: after being granted X, the play intent emitted from
`stReady` (stored symbol X) at index 0 carries X. -/
theorem C6_witness :
    (onJoined initialClientState Symbol.X).symbol = some Symbol.X ∧
    (onJoined initialClientState Symbol.X).joined = true ∧
    InboundMsg.play stReady.roomId 0 Symbol.X = InboundMsg.play stReady.roomId 0 Symbol.X :=
  ⟨(C6_joined_grants_symbol initialClientState Symbol.X).1,
   (C6_joined_grants_symbol initialClientState Symbol.X).2.1,
   (C6_joined_grants_symbol initialClientState Symbol.X).2.2 stReady 0
     (InboundMsg.play stReady.roomId 0 Symbol.X) (by decide) (by decide)⟩

/-- Claim C7: the initial local room state has a board of exactly 9
cells, all empty, with turn X and an empty player list. -/
theorem C7_initial_state :
    initialClientState.gameState.board = List.replicate 9 none
    ∧ initialClientState.gameState.board.length = 9
    ∧ initialClientState.gameState.turn = Symbol.X
    ∧ initialClientState.gameState.players = ([] : List String) :=
  ⟨rfl, rfl, rfl, rfl⟩

/-- Claim C8: `fetchGameStatus` issues a GET to the `/status` path under
the base URL and returns the parsed JSON response body; `sendMove` issues
a POST to `/move` with a Content-Type application/json header and the
JSON-serialised move data as body, returning the parsed JSON response. -/
theorem C8_http_requests {Json : Type} (env : HttpEnv Json) (baseUrl : String)
    (moveData : Json) :
    (fetchGameStatus env baseUrl).1.method = "GET"
    ∧ (fetchGameStatus env baseUrl).1.url = baseUrl ++ "/status"
    ∧ (fetchGameStatus env baseUrl).1.body = none
    ∧ (fetchGameStatus env baseUrl).2
        = env.parseJson (env.fetch (fetchGameStatus env baseUrl).1)
    ∧ (sendMove env baseUrl moveData).1.method = "POST"
    ∧ (sendMove env baseUrl moveData).1.url = baseUrl ++ "/move"
    ∧ (sendMove env baseUrl moveData).1.headers = [("Content-Type", "application/json")]
    ∧ (sendMove env baseUrl moveData).1.body = some (env.stringify moveData)
    ∧ (sendMove env baseUrl moveData).2
        = env.parseJson (env.fetch (sendMove env baseUrl moveData).1) :=
  ⟨rfl, rfl, rfl, rfl, rfl, rfl, rfl, rfl, rfl⟩

/-- Claim C9: `joinRoom` emits a join intent exactly when the room id is
nonempty after trimming, and the payload it sends is the original
untrimmed room id; the local state is never changed. -/
theorem C9_joinRoom_trim_guard (st : ClientState) :
    (jsTrim st.roomId ≠ "" → (joinRoom st).2 = some (InboundMsg.join st.roomId))
    ∧ (jsTrim st.roomId = "" → (joinRoom st).2 = none)
    ∧ (joinRoom st).1 = st := by
  unfold joinRoom
  by_cases h : jsTrim st.roomId = "" <;> simp [h]

/-- A client state whose room id has surrounding whitespace, to show the
untrimmed id is the one sent. -/
def stUntrimmed : ClientState :=
  { initialClientState with roomId := "  r1  " }

/-- Witness for C9: a room id with surrounding whitespace is nonempty
after trimming, and the join intent carries the untrimmed id. -/
theorem C9_witness :
    (joinRoom stUntrimmed).2 = some (InboundMsg.join stUntrimmed.roomId) :=
  (C9_joinRoom_trim_guard stUntrimmed).1 (by decide)

/-- Claim C10: a cell is highlighted exactly when the winner line is
present and contains its index; when the winner line is absent no cell is
highlighted. -/
theorem C10_highlight_iff (room : RoomState) (i : Nat) :
    (highlight room i = true ↔ ∃ line, room.winnerLine = some line ∧ i ∈ line)
    ∧ (room.winnerLine = none → highlight room i = false) := by
  unfold highlight
  rcases h : room.winnerLine with _ | line <;> simp [h]

/-- A finished room with winner line 0-1-2, for instantiating C10. -/
def winRoom : RoomState :=
  { board := [some Symbol.X, some Symbol.X, some Symbol.X, none, none, none, none, none, none]
    players := ["a", "b"]
    turn := Symbol.X
    winnerLine := some [0, 1, 2] }

/-- Witness for C10: cell 1 lies on the winner line 0-1-2 and is
highlighted. -/
theorem C10_witness : highlight winRoom 1 = true :=
  (C10_highlight_iff winRoom 1).1.mpr ⟨[0, 1, 2], rfl, by decide⟩

end TicTacToe
